import Mathlib

/-
Verification development for the motors_elmo_ds402 device-profile layer
(src/src/Controller.cpp, src/src/Main.cpp, Controller.hpp).

The Controller's state and operations are embedded shallowly:
doubles become exact rationals (ℚ), the external CANopen engine's
object cache becomes an explicit record of the raw values the
Controller reads and writes, and C++ exceptions become `Except` errors.
Headers of this repository that are not present under src/
(Objects.hpp, Update.hpp, Factors.hpp, MotorParameters.hpp) are
modelled from the spec, as marked on each such definition.
-/

namespace MotorsElmoDs402

/-- Object-dictionary identities referenced by Controller.cpp.
Modelled from the spec: Objects.hpp (the compile-time catalogue of
object-dictionary entries) is not under src/, so the numeric
(index, subindex) pairs are unknown; each object the Controller names
becomes one abstract identity, and `other` stands for any
object-dictionary entry outside that list (the classifier's default
case gives those no semantic group). -/
inductive Obj
  | statusWord
  | modesOfOperation
  | positionEncoderResolutionNum
  | positionEncoderResolutionDen
  | velocityEncoderResolutionNum
  | velocityEncoderResolutionDen
  | accelerationFactorNum
  | accelerationFactorDen
  | gearRatioNum
  | gearRatioDen
  | feedConstantNum
  | feedConstantDen
  | velocityFactorNum
  | velocityFactorDen
  | motorRatedCurrent
  | motorRatedTorque
  | positionActualInternalValue
  | velocityActualValue
  | currentActualValue
  | softwarePositionLimitMin
  | softwarePositionLimitMax
  | maxMotorSpeed
  | maxAcceleration
  | maxDeceleration
  | maxCurrent
  | targetPosition
  | targetVelocity
  | targetTorque
  | other
deriving DecidableEq, Repr

/-- The external CANopen engine's key-value cache of raw object values,
restricted to the entries Controller.cpp reads or writes. Numerator /
denominator / rated objects are unsigned (Nat), actual values, limits
and targets are signed (Int). Field defaults are the values
`Controller::Controller` seeds via setRaw (all the factor objects are
set to 1; the rest of the cache is modelled with value 0 until a drive
message arrives). -/
structure RawStore where
  positionEncoderResolutionNum : Nat := 1
  positionEncoderResolutionDen : Nat := 1
  gearRatioNum : Nat := 1
  gearRatioDen : Nat := 1
  feedConstantNum : Nat := 1
  feedConstantDen : Nat := 1
  motorRatedCurrent : Nat := 1
  motorRatedTorque : Nat := 1
  positionActualInternalValue : Int := 0
  velocityActualValue : Int := 0
  currentActualValue : Int := 0
  softwarePositionLimitMin : Int := 0
  softwarePositionLimitMax : Int := 0
  maxMotorSpeed : Int := 0
  maxAcceleration : Int := 0
  maxDeceleration : Int := 0
  maxCurrent : Int := 0
  targetPosition : Int := 0
  targetVelocity : Int := 0
  targetTorque : Int := 0
deriving DecidableEq, Repr

/-- Last-known raw value of an object in the engine cache, as an Int.
Objects the Controller never reads back (and `other`) are reported
as 0. -/
def getRawObj (s : RawStore) : Obj → Int
  | Obj.positionEncoderResolutionNum => s.positionEncoderResolutionNum
  | Obj.positionEncoderResolutionDen => s.positionEncoderResolutionDen
  | Obj.gearRatioNum => s.gearRatioNum
  | Obj.gearRatioDen => s.gearRatioDen
  | Obj.feedConstantNum => s.feedConstantNum
  | Obj.feedConstantDen => s.feedConstantDen
  | Obj.motorRatedCurrent => s.motorRatedCurrent
  | Obj.motorRatedTorque => s.motorRatedTorque
  | Obj.positionActualInternalValue => s.positionActualInternalValue
  | Obj.velocityActualValue => s.velocityActualValue
  | Obj.currentActualValue => s.currentActualValue
  | Obj.softwarePositionLimitMin => s.softwarePositionLimitMin
  | Obj.softwarePositionLimitMax => s.softwarePositionLimitMax
  | Obj.maxMotorSpeed => s.maxMotorSpeed
  | Obj.maxAcceleration => s.maxAcceleration
  | Obj.maxDeceleration => s.maxDeceleration
  | Obj.maxCurrent => s.maxCurrent
  | Obj.targetPosition => s.targetPosition
  | Obj.targetVelocity => s.targetVelocity
  | Obj.targetTorque => s.targetTorque
  | _ => 0

/-- Scale-parameter state. Modelled from the spec: Factors.hpp is not
under src/. Per the spec the struct is seeded with identity defaults at
construction, ratedTorque may be "unknown" (it is unknown until set;
`base::unknown<double>()` becomes `none`), and encoderScaleFactor
defaults to 1. The spec's `update()` recomputation is a pure function
of these fields, so the conversion functions below read the fields
directly. -/
structure Factors where
  encoderTicks : Nat := 1
  encoderRevolutions : Nat := 1
  gearMotorShaftRevolutions : Nat := 1
  gearDrivingShaftRevolutions : Nat := 1
  feedLength : Nat := 1
  feedDrivingShaftRevolutions : Nat := 1
  ratedTorque : Option ℚ := none
  ratedCurrent : ℚ := 1
  encoderScaleFactor : ℚ := 1
deriving DecidableEq, Repr

/-- Modelled from the spec (section 4.2): raw to physical conversion for
position/speed, a chained multiply/divide across the encoder, gear and
feed ratios, times the final encoder scale factor. -/
def rawToEncoder (f : Factors) (raw : ℚ) : ℚ :=
  raw * (f.encoderRevolutions : ℚ) * (f.gearDrivingShaftRevolutions : ℚ)
      * (f.feedLength : ℚ)
    / ((f.encoderTicks : ℚ) * (f.gearMotorShaftRevolutions : ℚ)
      * (f.feedDrivingShaftRevolutions : ℚ))
    * f.encoderScaleFactor

/-- Modelled from the spec (section 4.2): `rawFromEncoder` is the exact
algebraic inverse of `rawToEncoder`. -/
def rawFromEncoder (f : Factors) (x : ℚ) : ℚ :=
  x * ((f.encoderTicks : ℚ) * (f.gearMotorShaftRevolutions : ℚ)
      * (f.feedDrivingShaftRevolutions : ℚ))
    / ((f.encoderRevolutions : ℚ) * (f.gearDrivingShaftRevolutions : ℚ)
      * (f.feedLength : ℚ))
    / f.encoderScaleFactor

/-- Modelled from the spec (section 4.2): the drive reports current in
thousandths of the rated current. -/
def rawToCurrent (f : Factors) (raw : ℚ) : ℚ :=
  raw * f.ratedCurrent / 1000

/-- Application-supplied static overrides. Modelled from the spec:
MotorParameters.hpp is not under src/. The six ratio fields are
unsigned with 0 meaning "not set" (Controller.cpp tests them for
truthiness), and torqueConstant is a double that may be unknown
(Controller.cpp tests it with base::isUnknown). -/
structure MotorParameters where
  encoderTicks : Nat := 0
  encoderRevolutions : Nat := 0
  gearMotorShaftRevolutions : Nat := 0
  gearDrivingShaftRevolutions : Nat := 0
  feedLength : Nat := 0
  feedDrivingShaftRevolutions : Nat := 0
  torqueConstant : Option ℚ := none
deriving DecidableEq, Repr

/-- Error kinds raised synchronously by Controller operations
(spec section 7; in the source they are thrown as std::logic_error,
std::out_of_range and std::invalid_argument). -/
inductive CtrlError
  | preconditionNotMet
  | outOfRange
  | invalidArgument
deriving DecidableEq, Repr

/-- An outgoing SDO download (write) message produced by
`mCanOpen.download(OBJECT_ID, OBJECT_SUB_ID, value)`. The value is kept
as the exact rational the Controller computes; for `setTorqueTarget`
the source then applies `static_cast<int16_t>` to it, which is exact
for values inside the int16 range and undefined behaviour outside. -/
structure SdoDownload where
  obj : Obj
  value : ℚ
deriving DecidableEq, Repr

/-- Controller state: the engine cache handle, mRatedTorque (seeded
with `base::unknown<double>()`, hence `none`), the cached Factors, the
zero position offset and the stored MotorParameters
(Controller.hpp, private section). -/
structure ControllerState where
  store : RawStore := {}
  ratedTorque : Option ℚ := none
  factors : Factors := {}
  zeroPosition : Int := 0
  motorParameters : MotorParameters := {}
deriving DecidableEq, Repr

/-- State right after `Controller::Controller(nodeId)`: the constructor
seeds the factor objects of the cache with 1 (already the RawStore
defaults) and leaves every other member at its default. -/
def initialControllerState : ControllerState := {}

/-- `Controller::setRatedTorque` (Controller.cpp lines 20-23): stores
the value in mRatedTorque and touches nothing else - in particular it
does not touch mFactors. -/
def setRatedTorque (st : ControllerState) (ratedTorque : ℚ) : ControllerState :=
  { st with ratedTorque := some ratedTorque }

/-- `Controller::setTorqueTarget` (Controller.cpp lines 101-112):
fails with a precondition error while mFactors.ratedTorque is unknown,
converts the physical target to the drive's per-thousand scale,
range-checks it with `canopen_target < -32767 || canopen_target > 32768`
and otherwise builds the TargetTorque download message. -/
def setTorqueTarget (st : ControllerState) (target : ℚ) :
    Except CtrlError SdoDownload :=
  match st.factors.ratedTorque with
  | none => Except.error CtrlError.preconditionNotMet
  | some rt =>
    let canopenTarget := target / rt * 1000
    if canopenTarget < -32767 ∨ canopenTarget > 32768 then
      Except.error CtrlError.outOfRange
    else
      Except.ok { obj := Obj.targetTorque, value := canopenTarget }

/-- Per-object semantic-group bit. Modelled from the spec: Update.hpp
and Objects.hpp (which carry the UPDATE_ID constants) are not under
src/; each object of the classifier gets one distinct bit, exactly the
objects listed in the SDO_UPDATE_CASE table of `Controller::process`
(Controller.cpp lines 194-224). Objects outside the table (the switch
default, the targets, `other`) contribute no bit. -/
def updateId : Obj → Nat
  | Obj.statusWord => 1
  | Obj.modesOfOperation => 2
  | Obj.positionEncoderResolutionNum => 8
  | Obj.positionEncoderResolutionDen => 16
  | Obj.velocityEncoderResolutionNum => 32
  | Obj.velocityEncoderResolutionDen => 64
  | Obj.accelerationFactorNum => 128
  | Obj.accelerationFactorDen => 256
  | Obj.gearRatioNum => 512
  | Obj.gearRatioDen => 1024
  | Obj.feedConstantNum => 2048
  | Obj.feedConstantDen => 4096
  | Obj.velocityFactorNum => 8192
  | Obj.velocityFactorDen => 16384
  | Obj.motorRatedCurrent => 32768
  | Obj.motorRatedTorque => 65536
  | Obj.positionActualInternalValue => 131072
  | Obj.velocityActualValue => 262144
  | Obj.currentActualValue => 524288
  | Obj.softwarePositionLimitMin => 1048576
  | Obj.softwarePositionLimitMax => 2097152
  | Obj.maxMotorSpeed => 4194304
  | Obj.maxAcceleration => 8388608
  | Obj.maxDeceleration => 16777216
  | Obj.maxCurrent => 33554432
  | _ => 0

/-- Modelled from the spec: group mask for the status word. -/
def UPDATE_STATUS_WORD : Nat := updateId Obj.statusWord

/-- Modelled from the spec: group mask for the operation mode. -/
def UPDATE_OPERATION_MODE : Nat := updateId Obj.modesOfOperation

/-- Modelled from the spec: dedicated bit for heartbeat / node-state
events (Heartbeat::UPDATE_ID in the source). -/
def UPDATE_HEARTBEAT : Nat := 4

/-- Modelled from the spec: FACTORS group mask, the OR of the bits of
every factor object of the classifier table. -/
def UPDATE_FACTORS : Nat :=
  updateId Obj.positionEncoderResolutionNum |||
  updateId Obj.positionEncoderResolutionDen |||
  updateId Obj.velocityEncoderResolutionNum |||
  updateId Obj.velocityEncoderResolutionDen |||
  updateId Obj.accelerationFactorNum |||
  updateId Obj.accelerationFactorDen |||
  updateId Obj.gearRatioNum |||
  updateId Obj.gearRatioDen |||
  updateId Obj.feedConstantNum |||
  updateId Obj.feedConstantDen |||
  updateId Obj.velocityFactorNum |||
  updateId Obj.velocityFactorDen |||
  updateId Obj.motorRatedCurrent |||
  updateId Obj.motorRatedTorque

/-- Modelled from the spec: joint-state position field bit. -/
def UPDATE_JOINT_POSITION : Nat := updateId Obj.positionActualInternalValue

/-- Modelled from the spec: joint-state velocity field bit. -/
def UPDATE_JOINT_VELOCITY : Nat := updateId Obj.velocityActualValue

/-- Modelled from the spec: joint-state current field bit. -/
def UPDATE_JOINT_CURRENT : Nat := updateId Obj.currentActualValue

/-- Modelled from the spec: JOINT_STATE group mask, the OR of the three
joint-state field bits. -/
def UPDATE_JOINT_STATE : Nat :=
  UPDATE_JOINT_POSITION ||| UPDATE_JOINT_VELOCITY ||| UPDATE_JOINT_CURRENT

/-- Modelled from the spec: JOINT_LIMITS group mask. -/
def UPDATE_JOINT_LIMITS : Nat :=
  updateId Obj.softwarePositionLimitMin |||
  updateId Obj.softwarePositionLimitMax |||
  updateId Obj.maxMotorSpeed |||
  updateId Obj.maxAcceleration |||
  updateId Obj.maxDeceleration |||
  updateId Obj.maxCurrent

/-- Result of processing one incoming message. Modelled from the spec:
Update.hpp is not under src/; per the spec an UpdateResult is either an
acknowledgment of object X with its last-known value, or a bitmask of
updated semantic groups (`Update::Ack` / `Update::UpdatedObjects` in
the source). -/
inductive Update
  | ack (obj : Obj) (value : Int)
  | updatedObjects (mask : Nat)
deriving DecidableEq, Repr

/-- Whether the result is a write acknowledgment (`Update::isAck`,
used by Main.cpp). -/
def Update.isAck : Update → Bool
  | Update.ack _ _ => true
  | Update.updatedObjects _ => false

/-- Whether the result reports any group of `mask` as updated
(`Update::isUpdated` / `hasOneUpdated` in Main.cpp; an acknowledgment
reports no group). -/
def Update.reportsUpdated : Update → Nat → Bool
  | Update.ack _ _, _ => false
  | Update.updatedObjects m, mask => decide (m &&& mask ≠ 0)

/-- Low-level result the external CANopen engine returns from
`mCanOpen.process(msg)`: a mode tag plus the list of changed
(index, subindex) pairs (spec section 6). Only the two modes
Controller.cpp inspects are distinguished. -/
inductive CanMode
  | processedHeartbeat
  | processedSdoInitiateDownload
  | otherMode
deriving DecidableEq, Repr

/-- Low-level update info from the engine. -/
structure CanUpdate where
  mode : CanMode
  updated : List Obj
deriving DecidableEq, Repr

/-- Application of `Controller::setMotorParameters` to the engine cache
(Controller.cpp lines 118-133): each ratio field overrides its raw
object only when non-zero, and a known torqueConstant rewrites the raw
MotorRatedTorque as `current_mA * torqueConstant` (the source converts
that double back to the unsigned raw object, which truncates; the
overrides touch disjoint fields, and MotorRatedCurrent is never
overridden, so the sequential writes equal this one record update). -/
def applyMotorParameters (s : RawStore) (p : MotorParameters) : RawStore :=
  { s with
    positionEncoderResolutionNum :=
      if p.encoderTicks ≠ 0 then p.encoderTicks
      else s.positionEncoderResolutionNum,
    positionEncoderResolutionDen :=
      if p.encoderRevolutions ≠ 0 then p.encoderRevolutions
      else s.positionEncoderResolutionDen,
    gearRatioNum :=
      if p.gearMotorShaftRevolutions ≠ 0 then p.gearMotorShaftRevolutions
      else s.gearRatioNum,
    gearRatioDen :=
      if p.gearDrivingShaftRevolutions ≠ 0 then p.gearDrivingShaftRevolutions
      else s.gearRatioDen,
    feedConstantNum :=
      if p.feedLength ≠ 0 then p.feedLength
      else s.feedConstantNum,
    feedConstantDen :=
      if p.feedDrivingShaftRevolutions ≠ 0 then p.feedDrivingShaftRevolutions
      else s.feedConstantDen,
    motorRatedTorque :=
      match p.torqueConstant with
      | some tc => (((s.motorRatedCurrent : ℚ) * tc).floor).toNat
      | none => s.motorRatedTorque }

/-- `Controller::computeFactors` (Controller.cpp lines 146-159): builds
a fresh Factors (default-constructed, hence encoderScaleFactor = 1),
fills the ratio fields from the raw objects, derives ratedTorque and
ratedCurrent as raw/1000 and calls update(). -/
def computeFactors (s : RawStore) : Factors :=
  { encoderTicks := s.positionEncoderResolutionNum,
    encoderRevolutions := s.positionEncoderResolutionDen,
    gearMotorShaftRevolutions := s.gearRatioNum,
    gearDrivingShaftRevolutions := s.gearRatioDen,
    feedLength := s.feedConstantNum,
    feedDrivingShaftRevolutions := s.feedConstantDen,
    ratedTorque := some ((s.motorRatedTorque : ℚ) / 1000),
    ratedCurrent := (s.motorRatedCurrent : ℚ) / 1000,
    encoderScaleFactor := 1 }

/-- `Controller::setMotorParameters` (Controller.cpp lines 114-139):
stores the parameters, writes the non-default overrides into the raw
objects and recomputes the cached Factors. The source wraps
computeFactors in a try/catch for ObjectNotRead; the constructor seeds
every object computeFactors reads, so in the states modelled here
computeFactors always succeeds. -/
def setMotorParameters (st : ControllerState) (p : MotorParameters) :
    ControllerState :=
  let store := applyMotorParameters st.store p
  { st with
    motorParameters := p,
    store := store,
    factors := computeFactors store }

/-- `Controller::setEncoderScaleFactor` (Controller.cpp lines 293-297):
overwrites the scale factor of the cached Factors and re-runs update()
(pure in the fields, so a record update here). -/
def setEncoderScaleFactor (st : ControllerState) (scale : ℚ) :
    ControllerState :=
  { st with factors := { st.factors with encoderScaleFactor := scale } }

/-- Semantic-group bitmask `Controller::process` accumulates for one
low-level update: the heartbeat bit when the mode is
PROCESSED_HEARTBEAT, OR-ed with the UPDATE_ID of every changed object
of the classifier table. -/
def classifyUpdate (cu : CanUpdate) : Nat :=
  cu.updated.foldl (fun u o => u ||| updateId o)
    (if cu.mode = CanMode.processedHeartbeat then UPDATE_HEARTBEAT else 0)

/-- `Controller::process` (Controller.cpp lines 171-236). The incoming
message has already been fed to the external engine, whose cache `st`
holds; `cu` is the low-level update info the engine returned. A
PROCESSED_SDO_INITIATE_DOWNLOAD mode short-circuits to an
acknowledgment of `canUpdate.updated[0]`; otherwise the changed objects
are classified into a group bitmask and, when any FACTORS-group bit is
set, the stored MotorParameters are re-applied (which also recomputes
the cached Factors). -/
def process (st : ControllerState) (cu : CanUpdate) :
    ControllerState × Update :=
  if cu.mode = CanMode.processedSdoInitiateDownload then
    let obj := cu.updated.headD Obj.other
    (st, Update.ack obj (getRawObj st.store obj))
  else
    let update := classifyUpdate cu
    if update &&& UPDATE_FACTORS ≠ 0 then
      (setMotorParameters st st.motorParameters,
       Update.updatedObjects update)
    else
      (st, Update.updatedObjects update)

/-- Physical field value of a base::JointState / base::JointLimitRange
member: the "not present" NaN sentinel of an unset field (or of a
conversion whose rated torque is unknown), an infinity, or a finite
value. -/
inductive PhysVal
  | unknownVal
  | negInf
  | posInf
  | val (q : ℚ)
deriving DecidableEq, Repr

/-- Negation of a physical value (IEEE negation: NaN stays NaN,
infinities swap sign). -/
def PhysVal.neg : PhysVal → PhysVal
  | PhysVal.unknownVal => PhysVal.unknownVal
  | PhysVal.negInf => PhysVal.posInf
  | PhysVal.posInf => PhysVal.negInf
  | PhysVal.val q => PhysVal.val (-q)

/-- Torque conversion `Factors::rawToTorque`
(raw * ratedTorque / 1000, spec section 4.2); with the rated torque
unknown the double arithmetic of the source yields NaN, the "not
present" sentinel. -/
def rawToTorquePhys (f : Factors) (raw : ℚ) : PhysVal :=
  match f.ratedTorque with
  | some rt => PhysVal.val (raw * rt / 1000)
  | none => PhysVal.unknownVal

/-- View of base::JointState (external base-types): every field starts
at the "not present" NaN sentinel. -/
structure JointState where
  position : PhysVal := PhysVal.unknownVal
  speed : PhysVal := PhysVal.unknownVal
  acceleration : PhysVal := PhysVal.unknownVal
  effort : PhysVal := PhysVal.unknownVal
  raw : PhysVal := PhysVal.unknownVal
deriving DecidableEq, Repr

/-- View of base::JointLimitRange. -/
structure JointLimitRange where
  min : JointState
  max : JointState
deriving DecidableEq, Repr

/-- `Controller::getJointState` (Controller.cpp lines 299-319): for
each requested field bit, read the raw object, convert it and store it;
only the position gets the zero-position offset subtracted; fields not
requested keep the default "not present" sentinel. The current field
fills both raw (current) and effort (torque) from the one
CurrentActualValue object. -/
def getJointState (st : ControllerState) (fields : Nat) : JointState :=
  let s0 : JointState := {}
  let s1 :=
    if fields &&& UPDATE_JOINT_POSITION ≠ 0 then
      { s0 with position := PhysVal.val (rawToEncoder st.factors
          ((st.store.positionActualInternalValue - st.zeroPosition : Int) : ℚ)) }
    else s0
  let s2 :=
    if fields &&& UPDATE_JOINT_VELOCITY ≠ 0 then
      { s1 with speed := PhysVal.val (rawToEncoder st.factors
          ((st.store.velocityActualValue : Int) : ℚ)) }
    else s1
  if fields &&& UPDATE_JOINT_CURRENT ≠ 0 then
    { s2 with
      raw := PhysVal.val (rawToCurrent st.factors
        ((st.store.currentActualValue : Int) : ℚ)),
      effort := rawToTorquePhys st.factors
        ((st.store.currentActualValue : Int) : ℚ) }
  else s2

/-- `Controller::getJointLimits` (Controller.cpp lines 333-380):
a [0,0] raw position range and a negative raw max motor speed are
"no limit" sentinels mapped to infinite physical ranges, the
acceleration range is unconditionally infinite, and the one MaxCurrent
register yields both the effort range (via the torque scale) and the
current range (via the current scale). -/
def getJointLimits (st : ControllerState) : JointLimitRange :=
  let posPair : PhysVal × PhysVal :=
    if st.store.softwarePositionLimitMin = st.store.softwarePositionLimitMax
        ∧ st.store.softwarePositionLimitMin = 0 then
      (PhysVal.negInf, PhysVal.posInf)
    else
      (PhysVal.val (rawToEncoder st.factors
          ((st.store.softwarePositionLimitMin : Int) : ℚ)),
       PhysVal.val (rawToEncoder st.factors
          ((st.store.softwarePositionLimitMax : Int) : ℚ)))
  let speedPair : PhysVal × PhysVal :=
    if st.store.maxMotorSpeed < 0 then
      (PhysVal.negInf, PhysVal.posInf)
    else
      (PhysVal.val (-(rawToEncoder st.factors
          ((st.store.maxMotorSpeed : Int) : ℚ))),
       PhysVal.val (rawToEncoder st.factors
          ((st.store.maxMotorSpeed : Int) : ℚ)))
  let torqueLimit := rawToTorquePhys st.factors
    ((st.store.maxCurrent : Int) : ℚ)
  let currentLimit := rawToCurrent st.factors
    ((st.store.maxCurrent : Int) : ℚ)
  { min :=
      { position := posPair.1,
        speed := speedPair.1,
        acceleration := PhysVal.negInf,
        effort := torqueLimit.neg,
        raw := PhysVal.val (-currentLimit) },
    max :=
      { position := posPair.2,
        speed := speedPair.2,
        acceleration := PhysVal.posInf,
        effort := torqueLimit,
        raw := PhysVal.val currentLimit } }

/-- Control mode argument of configureControlPDO
(base::JointState::MODE, external base-types). -/
inductive ControlMode
  | position
  | speed
  | effort
  | rawMode
  | acceleration
deriving DecidableEq, Repr

/-- Mapping selection of `Controller::configureControlPDO`
(Controller.cpp lines 416-438): exactly one target object is mapped
into the control PDO for the position, speed and effort modes; every
other mode raises std::invalid_argument. The result lists the objects
of the PDO mapping (the engine-side configurePDO / declareRPDOMapping
calls are the external engine's concern). -/
def configureControlPDO (mode : ControlMode) : Except CtrlError (List Obj) :=
  match mode with
  | ControlMode.position => Except.ok [Obj.targetPosition]
  | ControlMode.speed => Except.ok [Obj.targetVelocity]
  | ControlMode.effort => Except.ok [Obj.targetTorque]
  | _ => Except.error CtrlError.invalidArgument

/-- Controller state whose cached Factors carry a known rated torque
of 1 (the state the spec's torque tests assume). -/
def torqueKnownState : ControllerState :=
  { factors := { ratedTorque := some 1 } }

/-- Low-level update reporting a drive-side refresh of one factor
object (GearRatioNum). -/
def cuFactorRefresh : CanUpdate :=
  { mode := CanMode.otherMode, updated := [Obj.gearRatioNum] }

/-- Example MotorParameters overrides: 4096 encoder ticks and a 100:1
gear numerator. -/
def mpOverride : MotorParameters :=
  { encoderTicks := 4096, gearMotorShaftRevolutions := 100 }

/-- Controller state that stores the example overrides. -/
def stWithOverrides : ControllerState :=
  { motorParameters := mpOverride }

/-- Controller state whose cached Factors carry an encoder scale factor
of 5 (as set by setEncoderScaleFactor). -/
def stScale : ControllerState :=
  { factors := { encoderScaleFactor := 5 } }

/-- Low-level update acknowledging a write of the StatusWord object. -/
def ackCanUpdate : CanUpdate :=
  { mode := CanMode.processedSdoInitiateDownload, updated := [Obj.statusWord] }

/-- Controller state whose cache holds the raw "no limit" sentinels:
position limits [0, 0] and max motor speed -1. -/
def stLimitsSentinel : ControllerState :=
  { store := { softwarePositionLimitMin := 0,
               softwarePositionLimitMax := 0,
               maxMotorSpeed := -1 } }

/-- Controller state with a raw position of 1000 and a zero-position
offset of 200. -/
def stJointState : ControllerState :=
  { store := { positionActualInternalValue := 1000 }, zeroPosition := 200 }

/-- Factors with the spec's example non-default ratios: 4096 ticks per
revolution, 100:1 gear ratio, 1:1 feed. -/
def factorsRoundTrip : Factors :=
  { encoderTicks := 4096, gearMotorShaftRevolutions := 100 }

/-- Claim C1. The claim states that after setRatedTorque(1.0), with no
factor objects read and no MotorParameters set, setTorqueTarget
succeeds for every in-range target. On the code it does not:
setRatedTorque writes only mRatedTorque, which setTorqueTarget never
consults (it checks mFactors.ratedTorque, still unknown), so the very
first in-range target already fails with the precondition error. -/
theorem torqueTarget_after_setRatedTorque :
    setTorqueTarget (setRatedTorque initialControllerState 1) 0 =
      Except.error CtrlError.preconditionNotMet := by
  rfl

/-- Claim C2. The claim states the out-of-range error fires exactly
outside [-32768, 32767]. The code's guard is
`canopen_target < -32767 || canopen_target > 32768`: with rated torque
1, the target 32.768 converts to raw 32768 - outside the signed 16-bit
field - yet is accepted (the subsequent int16 cast cannot represent
it), while -32.768 converts to raw -32768 - which fits the field - yet
is rejected. -/
theorem torqueTarget_range_guard_boundaries :
    setTorqueTarget torqueKnownState (4096 / 125) =
      Except.ok { obj := Obj.targetTorque, value := 32768 } ∧
    setTorqueTarget torqueKnownState (-4096 / 125) =
      Except.error CtrlError.outOfRange := by
  refine ⟨?_, ?_⟩ <;>
  · simp only [setTorqueTarget, torqueKnownState]
    norm_num

/-- Claim C5: while the rated torque of the cached Factors is unknown,
setTorqueTarget fails synchronously with the precondition-not-met
error for every target, and builds no write message. -/
theorem setTorqueTarget_requires_known_ratedTorque
    (st : ControllerState) (target : ℚ)
    (h : st.factors.ratedTorque = none) :
    setTorqueTarget st target = Except.error CtrlError.preconditionNotMet := by
  unfold setTorqueTarget
  rw [h]

/-- Witness for claim C5 at the freshly constructed controller and
target 5. -/
theorem setTorqueTarget_requires_known_ratedTorque_witness :
    initialControllerState.factors.ratedTorque = none ∧
    setTorqueTarget initialControllerState 5 =
      Except.error CtrlError.preconditionNotMet :=
  ⟨rfl, setTorqueTarget_requires_known_ratedTorque initialControllerState 5 rfl⟩

/-- Claim C3: whenever process classifies an incoming message as a
FACTORS-group change, it re-applies the stored MotorParameters to the
raw objects and recomputes the cached Factors before returning, so the
resulting Factors still reflect every non-default ratio override
previously set. -/
theorem process_factors_refresh_reapplies_motorParameters
    (st : ControllerState) (cu : CanUpdate)
    (h1 : cu.mode ≠ CanMode.processedSdoInitiateDownload)
    (h2 : classifyUpdate cu &&& UPDATE_FACTORS ≠ 0) :
    (process st cu).1 = setMotorParameters st st.motorParameters ∧
    (process st cu).1.factors =
      computeFactors (applyMotorParameters st.store st.motorParameters) ∧
    (st.motorParameters.encoderTicks ≠ 0 →
      (process st cu).1.factors.encoderTicks =
        st.motorParameters.encoderTicks) ∧
    (st.motorParameters.encoderRevolutions ≠ 0 →
      (process st cu).1.factors.encoderRevolutions =
        st.motorParameters.encoderRevolutions) ∧
    (st.motorParameters.gearMotorShaftRevolutions ≠ 0 →
      (process st cu).1.factors.gearMotorShaftRevolutions =
        st.motorParameters.gearMotorShaftRevolutions) ∧
    (st.motorParameters.gearDrivingShaftRevolutions ≠ 0 →
      (process st cu).1.factors.gearDrivingShaftRevolutions =
        st.motorParameters.gearDrivingShaftRevolutions) ∧
    (st.motorParameters.feedLength ≠ 0 →
      (process st cu).1.factors.feedLength =
        st.motorParameters.feedLength) ∧
    (st.motorParameters.feedDrivingShaftRevolutions ≠ 0 →
      (process st cu).1.factors.feedDrivingShaftRevolutions =
        st.motorParameters.feedDrivingShaftRevolutions) := by
  have hp : (process st cu).1 = setMotorParameters st st.motorParameters := by
    simp [process, h1, h2]
  refine ⟨hp, ?_, ?_, ?_, ?_, ?_, ?_, ?_⟩
  · rw [hp]; rfl
  all_goals
    intro h
    rw [hp]
    simp [setMotorParameters, computeFactors, applyMotorParameters, h]

/-- Witness for claim C3: with stored overrides (4096 encoder ticks,
100:1 gear numerator), a drive-reported GearRatioNum refresh leaves
Factors reflecting both overrides. -/
theorem process_factors_refresh_reapplies_motorParameters_witness :
    classifyUpdate cuFactorRefresh &&& UPDATE_FACTORS ≠ 0 ∧
    (process stWithOverrides cuFactorRefresh).1.factors.encoderTicks = 4096 ∧
    (process stWithOverrides cuFactorRefresh).1.factors.gearMotorShaftRevolutions
      = 100 := by
  have h := process_factors_refresh_reapplies_motorParameters
    stWithOverrides cuFactorRefresh (by decide) (by decide)
  refine ⟨by decide, ?_, ?_⟩
  · exact (h.2.2.1 (by decide)).trans (by decide)
  · exact (h.2.2.2.2.1 (by decide)).trans (by decide)

/-- Claim C4: when the engine classifies the incoming message as a
write acknowledgment, process short-circuits to an Ack result that
carries the acknowledged object's identity and its last-known cached
value, and reports no semantic group - in particular not the
acknowledged object's own group - as updated. -/
theorem process_ack_is_exclusive
    (st : ControllerState) (cu : CanUpdate) (obj : Obj) (rest : List Obj)
    (h1 : cu.mode = CanMode.processedSdoInitiateDownload)
    (h2 : cu.updated = obj :: rest) :
    (process st cu).2 = Update.ack obj (getRawObj st.store obj) ∧
    Update.isAck (process st cu).2 = true ∧
    ∀ mask : Nat, Update.reportsUpdated (process st cu).2 mask = false := by
  have hp : (process st cu).2 = Update.ack obj (getRawObj st.store obj) := by
    simp [process, h1, h2]
  exact ⟨hp, by rw [hp]; rfl, fun mask => by rw [hp]; rfl⟩

/-- Witness for claim C4: an acknowledgment of a StatusWord write is
reported as an Ack and does not report the STATUS_WORD group (nor the
FACTORS group) as updated. -/
theorem process_ack_is_exclusive_witness :
    (process initialControllerState ackCanUpdate).2 =
      Update.ack Obj.statusWord
        (getRawObj initialControllerState.store Obj.statusWord) ∧
    Update.reportsUpdated (process initialControllerState ackCanUpdate).2
      UPDATE_STATUS_WORD = false ∧
    Update.reportsUpdated (process initialControllerState ackCanUpdate).2
      UPDATE_FACTORS = false := by
  have h := process_ack_is_exclusive initialControllerState ackCanUpdate
    Obj.statusWord [] rfl rfl
  exact ⟨h.1, h.2.2 UPDATE_STATUS_WORD, h.2.2 UPDATE_FACTORS⟩

/-- Claim C10: the encoder scale factor does not survive a
drive-reported FACTORS refresh - after process handles any message that
updates the FACTORS group, the recomputation builds a fresh Factors
whose encoderScaleFactor is the default 1, regardless of the scale
previously set via setEncoderScaleFactor. -/
theorem factors_refresh_resets_encoderScaleFactor
    (st : ControllerState) (cu : CanUpdate)
    (h1 : cu.mode ≠ CanMode.processedSdoInitiateDownload)
    (h2 : classifyUpdate cu &&& UPDATE_FACTORS ≠ 0) :
    (process st cu).1.factors.encoderScaleFactor = 1 := by
  simp [process, h1, h2, setMotorParameters, computeFactors]

/-- Witness for claim C10: a controller whose scale factor was set to 5
drops back to 1 after a GearRatioNum refresh. -/
theorem factors_refresh_resets_encoderScaleFactor_witness :
    stScale.factors.encoderScaleFactor = 5 ∧
    (process stScale cuFactorRefresh).1.factors.encoderScaleFactor = 1 :=
  ⟨rfl, factors_refresh_resets_encoderScaleFactor stScale cuFactorRefresh
    (by decide) (by decide)⟩

/-- Claim C6: getJointLimits maps the sentinel raw values to infinite
physical ranges - raw position limits both 0 give a position range of
[-inf, +inf], a negative raw max motor speed gives a speed range of
[-inf, +inf], and the acceleration range is [-inf, +inf] for every
state. -/
theorem getJointLimits_sentinels (st : ControllerState) :
    ((st.store.softwarePositionLimitMin = 0 ∧
        st.store.softwarePositionLimitMax = 0) →
      (getJointLimits st).min.position = PhysVal.negInf ∧
      (getJointLimits st).max.position = PhysVal.posInf) ∧
    (st.store.maxMotorSpeed < 0 →
      (getJointLimits st).min.speed = PhysVal.negInf ∧
      (getJointLimits st).max.speed = PhysVal.posInf) ∧
    ((getJointLimits st).min.acceleration = PhysVal.negInf ∧
     (getJointLimits st).max.acceleration = PhysVal.posInf) := by
  refine ⟨?_, ?_, ?_⟩
  · rintro ⟨hmin, hmax⟩
    simp [getJointLimits, hmin, hmax]
  · intro h
    simp [getJointLimits, h]
  · simp [getJointLimits]

/-- Witness for claim C6 at raw position limits [0, 0] and raw max
motor speed -1. -/
theorem getJointLimits_sentinels_witness :
    (getJointLimits stLimitsSentinel).min.position = PhysVal.negInf ∧
    (getJointLimits stLimitsSentinel).max.speed = PhysVal.posInf ∧
    (getJointLimits stLimitsSentinel).max.acceleration = PhysVal.posInf := by
  have h := getJointLimits_sentinels stLimitsSentinel
  exact ⟨(h.1 ⟨rfl, rfl⟩).1, (h.2.1 (by decide)).2, h.2.2.2⟩

/-- Claim C7: getJointState converts exactly the fields whose bits are
requested - the zero-position offset is subtracted from the raw
position (and only from the position) before conversion - and every
field not requested keeps the "not present" sentinel rather than
zero. -/
theorem getJointState_requested_fields_only
    (st : ControllerState) (fields : Nat) :
    ((fields &&& UPDATE_JOINT_POSITION = 0 →
        (getJointState st fields).position = PhysVal.unknownVal) ∧
     (fields &&& UPDATE_JOINT_POSITION ≠ 0 →
        (getJointState st fields).position =
          PhysVal.val (rawToEncoder st.factors
            ((st.store.positionActualInternalValue - st.zeroPosition : Int)
              : ℚ)))) ∧
    ((fields &&& UPDATE_JOINT_VELOCITY = 0 →
        (getJointState st fields).speed = PhysVal.unknownVal) ∧
     (fields &&& UPDATE_JOINT_VELOCITY ≠ 0 →
        (getJointState st fields).speed =
          PhysVal.val (rawToEncoder st.factors
            ((st.store.velocityActualValue : Int) : ℚ)))) ∧
    ((fields &&& UPDATE_JOINT_CURRENT = 0 →
        (getJointState st fields).raw = PhysVal.unknownVal ∧
        (getJointState st fields).effort = PhysVal.unknownVal) ∧
     (fields &&& UPDATE_JOINT_CURRENT ≠ 0 →
        (getJointState st fields).raw =
          PhysVal.val (rawToCurrent st.factors
            ((st.store.currentActualValue : Int) : ℚ)) ∧
        (getJointState st fields).effort =
          rawToTorquePhys st.factors
            ((st.store.currentActualValue : Int) : ℚ))) ∧
    (getJointState st fields).acceleration = PhysVal.unknownVal := by
  unfold getJointState
  split_ifs with h1 h2 h3 <;> simp_all

/-- Witness for claim C7: requesting only the position yields the
zero-offset-corrected converted position (raw 1000 minus offset 200
gives 800 at identity factors) and leaves speed, effort, current and
acceleration at the sentinel. -/
theorem getJointState_requested_fields_only_witness :
    (getJointState stJointState UPDATE_JOINT_POSITION).position =
      PhysVal.val 800 ∧
    (getJointState stJointState UPDATE_JOINT_POSITION).speed =
      PhysVal.unknownVal ∧
    (getJointState stJointState UPDATE_JOINT_POSITION).raw =
      PhysVal.unknownVal ∧
    (getJointState stJointState UPDATE_JOINT_POSITION).acceleration =
      PhysVal.unknownVal := by
  have h := getJointState_requested_fields_only stJointState
    UPDATE_JOINT_POSITION
  refine ⟨?_, h.2.1.1 (by decide), (h.2.2.1.1 (by decide)).1, h.2.2.2⟩
  rw [h.1.2 (by decide)]
  show PhysVal.val (rawToEncoder stJointState.factors 800) = PhysVal.val 800
  simp [rawToEncoder, stJointState]

/-- Claim C8: with every ratio component and the scale factor non-zero
(in particular at the spec's example of 4096 ticks per revolution,
100:1 gear and 1:1 feed), rawFromEncoder is the exact algebraic
inverse of rawToEncoder: the round trip returns its input. -/
theorem rawFromEncoder_leftInverse (f : Factors) (x : ℚ)
    (h1 : f.encoderTicks ≠ 0) (h2 : f.encoderRevolutions ≠ 0)
    (h3 : f.gearMotorShaftRevolutions ≠ 0)
    (h4 : f.gearDrivingShaftRevolutions ≠ 0)
    (h5 : f.feedLength ≠ 0) (h6 : f.feedDrivingShaftRevolutions ≠ 0)
    (h7 : f.encoderScaleFactor ≠ 0) :
    rawFromEncoder f (rawToEncoder f x) = x := by
  have c1 : (f.encoderTicks : ℚ) ≠ 0 := Nat.cast_ne_zero.mpr h1
  have c2 : (f.encoderRevolutions : ℚ) ≠ 0 := Nat.cast_ne_zero.mpr h2
  have c3 : (f.gearMotorShaftRevolutions : ℚ) ≠ 0 := Nat.cast_ne_zero.mpr h3
  have c4 : (f.gearDrivingShaftRevolutions : ℚ) ≠ 0 := Nat.cast_ne_zero.mpr h4
  have c5 : (f.feedLength : ℚ) ≠ 0 := Nat.cast_ne_zero.mpr h5
  have c6 : (f.feedDrivingShaftRevolutions : ℚ) ≠ 0 := Nat.cast_ne_zero.mpr h6
  unfold rawToEncoder rawFromEncoder
  field_simp
  ring

/-- Witness for claim C8 at 4096 ticks per revolution, 100:1 gear,
1:1 feed and raw value 123456. -/
theorem rawFromEncoder_leftInverse_witness :
    rawFromEncoder factorsRoundTrip (rawToEncoder factorsRoundTrip 123456) =
      123456 :=
  rawFromEncoder_leftInverse factorsRoundTrip 123456 (by decide) (by decide)
    (by decide) (by decide) (by decide) (by decide) (by decide)

/-- Claim C9: configureControlPDO maps exactly one object into the
control PDO for the position, speed and effort modes (TargetPosition,
TargetVelocity and TargetTorque respectively) and raises the
invalid-argument error for every other mode. -/
theorem configureControlPDO_modes (m : ControlMode) :
    (m = ControlMode.position →
      configureControlPDO m = Except.ok [Obj.targetPosition]) ∧
    (m = ControlMode.speed →
      configureControlPDO m = Except.ok [Obj.targetVelocity]) ∧
    (m = ControlMode.effort →
      configureControlPDO m = Except.ok [Obj.targetTorque]) ∧
    (m ≠ ControlMode.position → m ≠ ControlMode.speed →
      m ≠ ControlMode.effort →
      configureControlPDO m = Except.error CtrlError.invalidArgument) := by
  cases m <;>
    exact ⟨fun h => by simp_all [configureControlPDO],
           fun h => by simp_all [configureControlPDO],
           fun h => by simp_all [configureControlPDO],
           fun ha hb hc => by simp_all [configureControlPDO]⟩

/-- Witness for claim C9 at the RAW control mode, which is rejected
with the invalid-argument error. -/
theorem configureControlPDO_modes_witness :
    configureControlPDO ControlMode.rawMode =
      Except.error CtrlError.invalidArgument :=
  (configureControlPDO_modes ControlMode.rawMode).2.2.2
    (by decide) (by decide) (by decide)

end MotorsElmoDs402
